import Mathlib

/-!
Shallow embedding of the `watchman` data pipeline
(`src/watchman/reddit_watcher.py`, `src/watchman/twitter_watcher.py`,
`src/watchman/yahoo_finance_watcher.py`) and proofs about its
pagination, normalization, retry and load logic.

Modelling conventions, uniform across the file:
* HTTP servers are modelled as functions from request index (and, where the
  code retries, attempt index) to the decoded response; network time,
  sleeps and logging are irrelevant to every property below and are dropped.
* A pandas `DataFrame` built by appending row dictionaries is modelled as a
  `List` of records.  A column exists in such a frame iff at least one
  appended row carried the key, so `df['col']` / `set_index('col')` on a
  frame where no row carried the key is modelled as `Except.error
  "KeyError: 'col'"`, exactly the `KeyError` pandas raises there.
* Float-typed JSON values are modelled as `ℚ`; no claim performs arithmetic
  on them.  Epoch timestamps stay `Int`; the ISO-8601 rendering of
  `created_utc` and the `date.fromtimestamp` calendar conversion are kept
  as the underlying integer (day number) because every claim treats these
  values as opaque keys.
-/

namespace Watchman

/-- Ceiling division, used by the spec's loop-bound claims. -/
def ceilDiv (a b : Nat) : Nat := (a + b - 1) / b

/-! ## Reddit (`reddit_watcher.py`)

`RedditWatcher.get_new_posts` loops `for i in range(int(how_many_posts /
100)))` per community; request `i = 0` uses `params = {'limit': 100}`,
request `i > 0` uses `after = kind + '_' + id` of the chronologically oldest
record of the previous page when that page is non-empty and `break`s
otherwise; every page is appended to `posts` and at the end
`posts.set_index('id', inplace=True)` runs. -/

/-- One raw post of a Reddit page response: the fields
`_df_from_response` reads out of `post['kind']` and `post['data'][...]`
(lines 200-215 of `reddit_watcher.py`). -/
structure RedditRawPost where
  kind : String
  subreddit : String
  title : String
  selftext : String
  upvote_ratio : ℚ
  ups : Int
  downs : Int
  score : Int
  total_awards_received : Int
  link_flair_css_class : String
  created_utc : Int
  created : ℚ
  id : String
deriving DecidableEq

/-- One row of the normalized Reddit posts frame (same 13 columns;
`created_utc` keeps the epoch value, see the file header). -/
structure RedditRecord where
  subreddit : String
  title : String
  selftext : String
  upvote_ratio : ℚ
  ups : Int
  downs : Int
  score : Int
  total_awards_received : Int
  link_flair_css_class : String
  created_utc : Int
  created : ℚ
  id : String
  kind : String
deriving DecidableEq

/-- Row normalization of `RedditWatcher._df_from_response`. -/
def redditToRecord (p : RedditRawPost) : RedditRecord :=
  { subreddit := p.subreddit
    title := p.title
    selftext := p.selftext
    upvote_ratio := p.upvote_ratio
    ups := p.ups
    downs := p.downs
    score := p.score
    total_awards_received := p.total_awards_received
    link_flair_css_class := p.link_flair_css_class
    created_utc := p.created_utc
    created := p.created
    id := p.id
    kind := p.kind }

/-- `RedditWatcher._df_from_response`: reads `res.json()['data']['children']`
(`none` models a body without that key, e.g. a non-200 error body — the
lookup raises at once, there is no retry on the Reddit path) and converts
each child to a row. -/
def redditDfFromResponse (body : Option (List RedditRawPost)) :
    Except String (List RedditRecord) :=
  match body with
  | none => .error "KeyError: 'data'"
  | some children => .ok (children.map redditToRecord)

/-- `res_result.sort_values(by='created_utc', ascending=True).iloc[0]`:
the chronologically oldest record of a page, first one on ties. -/
def redditOldest (page : List RedditRecord) : Option RedditRecord :=
  page.foldl
    (fun acc p =>
      match acc with
      | none => some p
      | some q => if p.created_utc < q.created_utc then some p else some q)
    none

/-- `last_post['kind'] + '_' + last_post['id']` of the oldest record. -/
def redditAfterFullname (page : List RedditRecord) : Option String :=
  (redditOldest page).map (fun q => q.kind ++ "_" ++ q.id)

/-- Request parameters `(limit, after)` of iteration `i` given the previous
page `last`; `none` models the `break` taken when `i > 0` and the previous
page was empty (lines 104-117 of `reddit_watcher.py`). -/
def redditParams (i : Nat) (last : List RedditRecord) :
    Option (Nat × Option String) :=
  if i = 0 then some (100, none)
  else if 0 < last.length then some (100, redditAfterFullname last)
  else none

/-- The per-community pagination loop: `remaining` iterations of
`range(int(how_many_posts / 100))` are left, `i` is the loop counter and
`last` the previous page (`res_result`).  Returns the pages fetched, in
order.  `srv i` is the (already well-formed) page the server answers to
request `i`; response bodies without a `data` key are covered separately by
`redditDfFromResponse`. -/
def redditGo (srv : Nat → List RedditRawPost) :
    Nat → Nat → List RedditRecord → List (List RedditRecord)
  | _, 0, _ => []
  | i, remaining + 1, last =>
    match redditParams i last with
    | none => []
    | some _ =>
      let page := (srv i).map redditToRecord
      page :: redditGo srv (i + 1) remaining page

/-- All pages fetched for one community:
`redditGo` started at `i = 0` with `int(how_many_posts / 100)` iterations. -/
def redditCommunityPages (srv : Nat → List RedditRawPost) (how_many_posts : Nat) :
    List (List RedditRecord) :=
  redditGo srv 0 (how_many_posts / 100) []

/-- Number of page requests issued for one community. -/
def redditRequests (srv : Nat → List RedditRawPost) (how_many_posts : Nat) : Nat :=
  (redditCommunityPages srv how_many_posts).length

/-- The community's contribution to `posts` (pages appended in order). -/
def redditCommunityPosts (srv : Nat → List RedditRawPost) (how_many_posts : Nat) :
    List RedditRecord :=
  (redditCommunityPages srv how_many_posts).flatten

/-- `posts` accumulated over all communities, in community order. -/
def redditAllPosts (communities : List (Nat → List RedditRawPost))
    (how_many_posts : Nat) : List RedditRecord :=
  (communities.map (fun srv => redditCommunityPosts srv how_many_posts)).flatten

/-- `RedditWatcher.get_new_posts` (without the optional BigQuery write):
accumulate all communities' pages, then `posts.set_index('id')` — which
raises `KeyError` when no row was ever appended, because the empty frame
has no `id` column. -/
def redditGetNewPosts (communities : List (Nat → List RedditRawPost))
    (how_many_posts : Nat) : Except String (List RedditRecord) :=
  let posts := redditAllPosts communities how_many_posts
  if posts.isEmpty then .error "KeyError: 'id'" else .ok posts

/-! ### Reddit pagination lemmas -/

theorem redditGo_length_le (srv : Nat → List RedditRawPost) :
    ∀ (r i : Nat) (last : List RedditRecord),
      (redditGo srv i r last).length ≤ r := by
  intro r
  induction r with
  | zero => intro i last; simp [redditGo]
  | succ n ih =>
    intro i last
    simp only [redditGo]
    cases redditParams i last with
    | none => simp
    | some p =>
      simpa using Nat.succ_le_succ (ih (i + 1) ((srv i).map redditToRecord))

theorem redditGo_early_empty (srv : Nat → List RedditRawPost) :
    ∀ (r i : Nat) (last : List RedditRecord),
      (redditGo srv i r last).length < r →
      (redditGo srv i r last).getLast? = some [] ∨
        redditParams i last = none := by
  intro r
  induction r with
  | zero => intro i last h; omega
  | succ n ih =>
    intro i last h
    by_cases hp : redditParams i last = none
    · exact Or.inr hp
    · left
      obtain ⟨p, hp'⟩ := Option.ne_none_iff_exists'.mp hp
      simp only [redditGo, hp'] at h ⊢
      set page := (srv i).map redditToRecord with hpage
      have hlt : (redditGo srv (i + 1) n page).length < n := by
        simpa using h
      rcases ih (i + 1) page hlt with hrec | hnone
      · rcases List.eq_nil_or_concat (redditGo srv (i + 1) n page) with hnil | ⟨l, a, hla⟩
        · rw [hnil] at hrec; simp at hrec
        · rw [hla] at hrec ⊢
          have ha : a = [] := by simpa using hrec
          subst ha
          rw [show page :: l.concat [] = (page :: l) ++ [[]] by simp [List.concat_cons]]
          exact List.getLast?_concat _
      · have hn1 : n ≠ 0 := by omega
        have hrecnil : redditGo srv (i + 1) n page = [] := by
          cases n with
          | zero => omega
          | succ m => simp [redditGo, hnone]
        have hpagenil : page = [] := by
          by_contra hne
          have : 0 < page.length := List.length_pos.mpr hne
          simp [redditParams, this] at hnone
        rw [hrecnil, hpagenil]
        rfl

theorem redditCommunityPosts_length_le (srv : Nat → List RedditRawPost)
    (how_many_posts : Nat) (hsrv : ∀ i, (srv i).length ≤ 100) :
    (redditCommunityPosts srv how_many_posts).length ≤ how_many_posts := by
  have hgen : ∀ (r i : Nat) (last : List RedditRecord),
      ((redditGo srv i r last).flatten).length ≤ r * 100 := by
    intro r
    induction r with
    | zero => intro i last; simp [redditGo]
    | succ n ih =>
      intro i last
      simp only [redditGo]
      cases redditParams i last with
      | none => simp
      | some p =>
        simp only [List.flatten_cons, List.length_append]
        have h1 : ((srv i).map redditToRecord).length ≤ 100 := by
          simpa using hsrv i
        have h2 := ih (i + 1) ((srv i).map redditToRecord)
        calc ((srv i).map redditToRecord).length
              + ((redditGo srv (i + 1) n ((srv i).map redditToRecord)).flatten).length
            ≤ 100 + n * 100 := Nat.add_le_add h1 h2
          _ = (n + 1) * 100 := by ring
  calc (redditCommunityPosts srv how_many_posts).length
      ≤ (how_many_posts / 100) * 100 := hgen _ 0 []
    _ ≤ how_many_posts := Nat.div_mul_le_self _ _

theorem redditAllPosts_length_le (communities : List (Nat → List RedditRawPost))
    (how_many_posts : Nat)
    (hsrv : ∀ srv ∈ communities, ∀ i, (srv i).length ≤ 100) :
    (redditAllPosts communities how_many_posts).length ≤
      communities.length * how_many_posts := by
  induction communities with
  | nil => simp [redditAllPosts]
  | cons c cs ih =>
    simp only [redditAllPosts, List.map_cons, List.flatten_cons, List.length_append]
    have h1 : (redditCommunityPosts c how_many_posts).length ≤ how_many_posts :=
      redditCommunityPosts_length_le c how_many_posts
        (hsrv c (List.mem_cons_self c cs))
    have h2 := ih (fun srv hs i => hsrv srv (List.mem_cons_of_mem c hs) i)
    simp only [redditAllPosts] at h2
    calc (redditCommunityPosts c how_many_posts).length
          + ((cs.map (fun srv => redditCommunityPosts srv how_many_posts)).flatten).length
        ≤ how_many_posts + cs.length * how_many_posts := Nat.add_le_add h1 h2
      _ = (cs.length + 1) * how_many_posts := by ring
      _ = (c :: cs).length * how_many_posts := by simp [Nat.succ_eq_add_one]

/-! ## Twitter (`twitter_watcher.py`)

`TwitterWatcher.write_results` fetches a first page, then loops
`while df_results.shape[0] < max_results and 'next_token' in meta_dict`
fetching further pages; `_get_page_results` retries a non-200 response up
to `max_request_tries = 3` total attempts and, if still non-200, returns an
empty frame paired with `response.json()['meta']`; `_df_from_response`
flattens entities, unpacks metrics and left-joins each tweet to its author. -/

/-- `public_metrics` of a tweet (always requested via `tweet.fields`). -/
structure TwTweetMetrics where
  retweet_count : Int
  reply_count : Int
  like_count : Int
  quote_count : Int
deriving DecidableEq

/-- One element of `entities.annotations`. -/
structure TwAnnItem where
  normalized_text : String
  type : String
deriving DecidableEq

/-- One element of `entities.cashtags` / `entities.hashtags`. -/
structure TwTagItem where
  tag : String
deriving DecidableEq

/-- One element of `entities.mentions`. -/
structure TwMentionItem where
  username : String
deriving DecidableEq

/-- One element of `entities.urls`. -/
structure TwUrlItem where
  url : String
deriving DecidableEq

/-- A tweet's `entities` object; every category is optional. -/
structure TwEntities where
  annotations : Option (List TwAnnItem)
  cashtags : Option (List TwTagItem)
  hashtags : Option (List TwTagItem)
  mentions : Option (List TwMentionItem)
  urls : Option (List TwUrlItem)
deriving DecidableEq

/-- One raw tweet of a page's `data` array.  `entities` is absent for
tweets without any entity (`none` models the missing key). -/
structure RawTweet where
  id : String
  author_id : String
  created_at : String
  text : String
  public_metrics : TwTweetMetrics
  entities : Option TwEntities
deriving DecidableEq

/-- `public_metrics` of a user (requested via `user.fields`). -/
structure TwUserMetrics where
  followers_count : Int
  following_count : Int
  tweet_count : Int
  listed_count : Int
deriving DecidableEq

/-- One raw user of `includes.users`. -/
structure RawUser where
  id : String
  username : String
  name : String
  public_metrics : TwUserMetrics
deriving DecidableEq

/-- The page's `meta` object; `next_token` is absent on the last page. -/
structure TwMeta where
  next_token : Option String
deriving DecidableEq

/-- A decoded Twitter response body; each `Option` models presence of the
corresponding JSON key (`data`, `includes.users`, `meta`). -/
structure TwBody where
  data : Option (List RawTweet)
  includes_users : Option (List RawUser)
  meta : Option TwMeta
deriving DecidableEq

/-- One HTTP response of the Twitter API. -/
structure TwResponse where
  status : Nat
  body : TwBody
deriving DecidableEq

/-- One row of the final tweets frame (after entity extraction, metric
unpacking, rename `id → tweet_id` and the left join to the author; user
columns are `Option` because an unresolved author leaves them null). -/
structure TwRow where
  created_at : String
  author_id : String
  text : String
  annotations : List String
  cashtags : List String
  hashtags : List String
  mentions : List String
  urls : List String
  retweet_count : Int
  reply_count : Int
  like_count : Int
  quote_count : Int
  username : Option String
  name : Option String
  followers_count : Option Int
  following_count : Option Int
  tweet_count : Option Int
  listed_count : Option Int
  tweet_id : String
deriving DecidableEq

/-- The empty dict substituted for a NaN `entities` cell
(`lambda x: {} if pd.isnull(x) else x`, line 183). -/
def twEmptyEntities : TwEntities := ⟨none, none, none, none, none⟩

/-- The (possibly substituted) `entities` dict of a tweet. -/
def twEntOf (e : Option TwEntities) : TwEntities := e.getD twEmptyEntities

/-- `[a['normalized_text'] + '_' + a['type'] for a in x['annotations']] if
'annotations' in x.keys() else []` (line 186). -/
def twAnnotationsOf (e : Option TwEntities) : List String :=
  match (twEntOf e).annotations with
  | some l => l.map (fun a => a.normalized_text ++ "_" ++ a.type)
  | none => []

/-- `[c['tag'] for c in x['cashtags']] if 'cashtags' in x.keys() else []`. -/
def twCashtagsOf (e : Option TwEntities) : List String :=
  match (twEntOf e).cashtags with
  | some l => l.map TwTagItem.tag
  | none => []

/-- `[h['tag'] for h in x['hashtags']] if 'hashtags' in x.keys() else []`. -/
def twHashtagsOf (e : Option TwEntities) : List String :=
  match (twEntOf e).hashtags with
  | some l => l.map TwTagItem.tag
  | none => []

/-- `[m['username'] for m in x['mentions']] if 'mentions' in x.keys() else []`. -/
def twMentionsOf (e : Option TwEntities) : List String :=
  match (twEntOf e).mentions with
  | some l => l.map TwMentionItem.username
  | none => []

/-- `[u['url'] for u in x['urls']] if 'urls' in x.keys() else []`. -/
def twUrlsOf (e : Option TwEntities) : List String :=
  match (twEntOf e).urls with
  | some l => l.map TwUrlItem.url
  | none => []

/-- One merged output row for tweet `t` joined (or not) to user `u`:
tweet columns, extracted entity lists, unpacked tweet metrics, user columns
(null when the author did not resolve), `tweet_id` from the renamed `id`. -/
def twMkRow (t : RawTweet) (u : Option RawUser) : TwRow :=
  { created_at := t.created_at
    author_id := t.author_id
    text := t.text
    annotations := twAnnotationsOf t.entities
    cashtags := twCashtagsOf t.entities
    hashtags := twHashtagsOf t.entities
    mentions := twMentionsOf t.entities
    urls := twUrlsOf t.entities
    retweet_count := t.public_metrics.retweet_count
    reply_count := t.public_metrics.reply_count
    like_count := t.public_metrics.like_count
    quote_count := t.public_metrics.quote_count
    username := u.map RawUser.username
    name := u.map RawUser.name
    followers_count := u.map (fun x => x.public_metrics.followers_count)
    following_count := u.map (fun x => x.public_metrics.following_count)
    tweet_count := u.map (fun x => x.public_metrics.tweet_count)
    listed_count := u.map (fun x => x.public_metrics.listed_count)
    tweet_id := t.id }

/-- `pd.merge(left=df, right=df_user, left_on='author_id', right_on='id',
how='left')`: each tweet row, in order, paired with every user whose `id`
matches its `author_id`, or with nulls when none matches. -/
def twMergedRows (tweets : List RawTweet) (users : List RawUser) : List TwRow :=
  tweets.flatMap (fun t =>
    match users.filter (fun u => u.id = t.author_id) with
    | [] => [twMkRow t none]
    | us => us.map (fun u => twMkRow t (some u)))

/-- `TwitterWatcher._df_from_response` (lines 180-224).  Error cases mirror
the `KeyError`s pandas raises, in program order: a body without `data`
fails at `res.json()['data']`; a page where no tweet carries an `entities`
key (in particular an empty page) has no `entities` column, so
`df['entities']` fails; a body without `includes.users` fails at
`res.json()['includes']['users']`; an empty users list gives a user frame
without a `public_metrics` column. -/
def twDfFromResponse (b : TwBody) : Except String (List TwRow) :=
  match b.data with
  | none => .error "KeyError: 'data'"
  | some tweets =>
    if tweets.all (fun t => t.entities.isNone) then .error "KeyError: 'entities'"
    else
      match b.includes_users with
      | none => .error "KeyError: 'includes'"
      | some users =>
        if users.isEmpty then .error "KeyError: 'public_metrics'"
        else .ok (twMergedRows tweets users)

/-- `max_request_tries = 3` (line 88). -/
def maxRequestTries : Nat := 3

/-- The retry loop of `_get_page_results` (lines 95-99):
`while response.status_code != 200 and n_request_tries < max_request_tries`
re-issue the request.  `att k` is the response of attempt `k`; `resp` the
current response, `n` the number of requests already made (`n_request_tries`
starts at 1), `fuel` bounds the recursion (`maxRequestTries` suffices).
Returns the final response and the total number of attempts. -/
def twRetryGo (att : Nat → TwResponse) :
    Nat → TwResponse → Nat → TwResponse × Nat
  | 0, resp, n => (resp, n)
  | fuel + 1, resp, n =>
    if resp.status ≠ 200 ∧ n < maxRequestTries then
      twRetryGo att fuel (att n) (n + 1)
    else (resp, n)

/-- `TwitterWatcher._get_page_results`: retry, then on a 200 response
return `(self._df_from_response(response), response.json()['meta'])`
(the frame is built first, then `meta` is read) and on a still-failing
response return an empty frame with the failing body's `meta` (lines
102-106; a `KeyError` when that body has no `meta` key).  The second
component is the number of HTTP attempts issued. -/
def twGetPage (att : Nat → TwResponse) :
    Except String (List TwRow × TwMeta) × Nat :=
  let (resp, n) := twRetryGo att maxRequestTries (att 0) 1
  if resp.status = 200 then
    ((twDfFromResponse resp.body).bind (fun df =>
      match resp.body.meta with
      | some m => .ok (df, m)
      | none => .error "KeyError: 'meta'"), n)
  else
    (match resp.body.meta with
     | some m => .ok ([], m)
     | none => .error "KeyError: 'meta'", n)

/-- A fetched page at the level the `write_results` loop consumes it:
the normalized rows together with the page's `meta`. -/
abbrev TwPage : Type := List TwRow × TwMeta

/-- The pagination loop of `write_results` (lines 137-148) at page level:
`acc` is `df_results` so far and `meta` the previous page's metadata;
while `acc.length < max_results` and the metadata has a `next_token`, the
next page of the stream is consumed.  Returns the list of pages consumed
by the loop (the first page, fetched before the loop, is not included). -/
def twLoop (max_results : Nat) :
    List TwRow → TwMeta → List TwPage → List TwPage
  | _, _, [] => []
  | acc, meta, p :: ps =>
    if acc.length < max_results ∧ meta.next_token.isSome then
      p :: twLoop max_results (acc ++ p.1) p.2 ps
    else []

/-- All rows accumulated by a run that fetched `first` and then consumed
`consumed` in the loop. -/
def twRows (first : TwPage) (consumed : List TwPage) : List TwRow :=
  first.1 ++ (consumed.map (fun p => p.1)).flatten

/-- `df_results.shape[0]` after the first `k` loop pages were appended. -/
def twSizes (first : TwPage) (consumed : List TwPage) (k : Nat) : Nat :=
  first.1.length + (((consumed.take k).map (fun p => p.1)).flatten).length

/-- The metadata in effect before consuming loop page `k`
(`first.2` for `k = 0`, else the metadata of loop page `k - 1`). -/
def twMetaAt (first : TwPage) (consumed : List TwPage) (k : Nat) : TwMeta :=
  (first.2 :: consumed.map (fun p => p.2)).getD k ⟨none⟩

/-- `TwitterWatcher.write_results` (without the optional BigQuery write):
fetch the first page through `_get_page_results`, run the pagination loop
(`server pageIdx attemptIdx` is the response to attempt `attemptIdx` of
page request `pageIdx`), then `df_results.set_index('tweet_id', ...)`,
which raises on a frame with no rows.  `fuel` bounds the number of loop
iterations modelled; every property proved below is independent of running
out of fuel or is evaluated on runs that stop within it. -/
def twWriteGo (server : Nat → Nat → TwResponse) (max_results : Nat) :
    Nat → Nat → List TwRow → TwMeta → Except String (List TwRow)
  | _, 0, acc, _ => .ok acc
  | pageIdx, fuel + 1, acc, meta =>
    if acc.length < max_results ∧ meta.next_token.isSome then
      match (twGetPage (server pageIdx)).1 with
      | .error e => .error e
      | .ok (df, m) => twWriteGo server max_results (pageIdx + 1) fuel (acc ++ df) m
    else .ok acc

/-- `TwitterWatcher.write_results`, see `twWriteGo`. -/
def twWriteResults (server : Nat → Nat → TwResponse) (max_results fuel : Nat) :
    Except String (List TwRow) :=
  match (twGetPage (server 0)).1 with
  | .error e => .error e
  | .ok (df, m) =>
    match twWriteGo server max_results 1 fuel df m with
    | .error e => .error e
    | .ok rows => if rows.isEmpty then .error "KeyError: 'tweet_id'" else .ok rows

/-! ## Yahoo-Finance (`yahoo_finance_watcher.py`)

`_retrieve_write_close_price` batches the requested tickers into groups of
10, fetches each batch with a bounded retry, appends close-price rows to a
delta table and missing tickers to a not-found table, then runs a
`MERGE`-by-(ticker, day) into the permanent table followed by `TRUNCATE` of
the delta.  `_retrieve_trending` loops over regions, skipping a region on
any exception or when its `finance.result` list is empty.
`write_results` runs close price always and trending only for
`n_round == 1`. -/

/-- One observation of a per-ticker close-price series: the fields the
pipeline keeps after the column select (`day`, `ticker`, `close_price`
come from `timestamp`, `symbol`, `close`; the other response columns —
`end`, `start`, `previousClose`, `chartPreviousClose`, `dataGranularity` —
are dropped by `df[['day', 'ticker', 'close_price']]` and are omitted
here). -/
structure YfObs where
  symbol : String
  timestamp : Int
  close : ℚ
deriving DecidableEq

/-- A decoded close-price response: `json.loads(response.text)` is a dict
keyed by ticker, each value a per-ticker series (line 130). -/
abbrev YfResp : Type := List (String × List YfObs)

/-- One row of the close-price (delta and permanent) table. -/
structure CPRow where
  day : Int
  ticker : String
  close_price : ℚ
deriving DecidableEq

/-- One row of the ticker-not-found table. -/
structure NFRow where
  day : Int
  ticker : String
  cause : String
deriving DecidableEq

/-- `date.fromtimestamp` abstracted as the UTC day number; every claim
treats `day` as an opaque key. -/
def tsToDay (ts : Int) : Int := ts / 86400

/-- The rows a successful batch response contributes after the append
loop, the timestamp conversion, the rename `timestamp → day`,
`symbol → ticker`, `close → close_price` and the column select
(lines 130-139). -/
def yfRowsOfResp (resp : YfResp) : List CPRow :=
  resp.flatMap (fun kv =>
    kv.2.map (fun o => ⟨tsToDay o.timestamp, o.symbol, o.close⟩))

/-- `[ticker for ticker in request if ticker not in df['ticker'].unique()]`
stamped with today's date and a cause (lines 149-152). -/
def yfNotFoundRows (today : Int) (request : List String) (rows : List CPRow)
    (cause : String) : List NFRow :=
  (request.filter (fun t => ¬ (rows.map CPRow.ticker).contains t)).map
    (fun t => ⟨today, t, cause⟩)

/-- The retry loop of a batch (lines 122-146):
`while yahoo_finance_error and retry_count < max_retry` try the request and
normalization (`att k` is the outcome of attempt `k`; an `Except.error`
models any exception inside the `try`, treated as atomic, see the file
header).  Returns the successful response, or `none` when every allowed
attempt failed. -/
def yfRetryLoop (att : Nat → Except String YfResp) :
    Nat → Nat → Option YfResp
  | 0, _ => none
  | fuel + 1, k =>
    match att k with
    | .ok r => some r
    | .error _ => yfRetryLoop att fuel (k + 1)

/-- One batch of `_retrieve_write_close_price` (lines 110-152), producing
the close-price rows and the not-found rows for that batch.  On the
all-attempts-failed path the frame was never renamed, so it still has a
`symbol` column and no `ticker` column, and `df['ticker'].unique()` on
line 149 raises `KeyError: 'ticker'` — the `cause = 'yahoo_finance_error'`
branch of line 152 is never reached. -/
def yfFetchBatch (today : Int) (request : List String)
    (att : Nat → Except String YfResp) (max_retry : Nat) :
    Except String (List CPRow × List NFRow) :=
  match yfRetryLoop att max_retry 0 with
  | some resp =>
    let rows := yfRowsOfResp resp
    .ok (rows, yfNotFoundRows today request rows "not_found")
  | none => .error "KeyError: 'ticker'"

/-- `[tickers[i:i+10] for i in range(0, len(tickers), 10)]` (line 107):
slice `i` is `tickers[10*i : 10*i + 10]`, for `ceil(len/10)` slices. -/
def chunks10 (l : List String) : List (List String) :=
  (List.range ((l.length + 9) / 10)).map (fun i => (l.drop (10 * i)).take 10)

/-- One element of a trending result's `quotes` list. -/
structure TrendQuote where
  symbol : String
deriving DecidableEq

/-- One entry of `response_dict['finance']['result']`. -/
structure TrendResult where
  quotes : List TrendQuote
deriving DecidableEq

/-- The decoded body of one region's trending response. -/
structure TrendResp where
  result : List TrendResult
deriving DecidableEq

/-- One row of the trending table. -/
structure TrendRow where
  day : Int
  ticker : String
  region : String
deriving DecidableEq

/-- The warehouse tables the Yahoo-Finance pipeline touches. -/
structure BqState where
  close_price : List CPRow
  close_price_delta : List CPRow
  ticker_not_found : List NFRow
  trending : List TrendRow
deriving DecidableEq

/-- The `MERGE` statement of lines 206-224: match on `ticker` and `day`,
`WHEN MATCHED THEN UPDATE SET close_price`, `WHEN NOT MATCHED THEN INSERT`.
BigQuery requires at most one source row to match a target row; the
theorems below assume distinct delta keys, under which `find?` picks that
unique row. -/
def mergeClosePrice (main delta : List CPRow) : List CPRow :=
  (main.map (fun t =>
    match delta.find? (fun s => s.ticker = t.ticker ∧ s.day = t.day) with
    | some s => { t with close_price := s.close_price }
    | none => t)) ++
  delta.filter (fun s =>
    ¬ main.any (fun t => s.ticker = t.ticker ∧ s.day = t.day))

/-- The merge-then-truncate tail of `_retrieve_write_close_price`
(lines 201-231): the permanent table after the `MERGE` and the delta
table after `TRUNCATE TABLE`. -/
def mergeStep (main delta : List CPRow) : List CPRow × List CPRow :=
  (mergeClosePrice main delta, [])

/-- One region's contribution in `_retrieve_trending` (lines 37-59): any
exception inside the `try` (request, JSON decoding, normalization) is
caught and logged, contributing nothing; a response with an empty
`finance.result` list is skipped; otherwise the first result entry's
quotes are normalized (`symbol → ticker`, stamped with today's date and
the region). -/
def trendRegionRows (today : Int) (region : String)
    (out : Except String TrendResp) : List TrendRow :=
  match out with
  | .error _ => []
  | .ok resp =>
    match resp.result with
    | [] => []
    | r0 :: _ => r0.quotes.map (fun q => ⟨today, q.symbol, region⟩)

/-- `YahooFinanceWatcher._retrieve_trending`: fold over the regions,
appending each region's contribution (`regions` pairs each region name
with the outcome of its fetch-and-decode). -/
def retrieveTrending (today : Int)
    (regions : List (String × Except String TrendResp)) : List TrendRow :=
  regions.foldl (fun df r => df ++ trendRegionRows today r.1 r.2) []

/-- The per-batch body of `_retrieve_write_close_price`: fetch batch `i`
with `att i`, and when `write_to_bq` append its rows to the delta table
and its not-found rows to the not-found table (`WRITE_APPEND` loads);
a batch whose fetch raises aborts the run. -/
def closePriceBatches (today : Int) (att : Nat → Nat → Except String YfResp)
    (max_retry : Nat) (write_to_bq : Bool) :
    List (List String) → Nat → BqState → Except String BqState
  | [], _, st => .ok st
  | b :: bs, i, st =>
    match yfFetchBatch today b (att i) max_retry with
    | .error e => .error e
    | .ok (rows, nf) =>
      let st' := if write_to_bq then
        { st with
          close_price_delta := st.close_price_delta ++ rows
          ticker_not_found := st.ticker_not_found ++ nf }
        else st
      closePriceBatches today att max_retry write_to_bq bs (i + 1) st'

/-- `YahooFinanceWatcher._retrieve_write_close_price`: split the requested
tickers into batches of 10, process every batch, then (when writing)
merge the delta table into the permanent table and truncate the delta.
The ticker list stands for the result of the most-discussed-stocks query
after variant substitution (lines 93-104), an external warehouse input. -/
def retrieveWriteClosePrice (today : Int) (tickers : List String)
    (att : Nat → Nat → Except String YfResp) (max_retry : Nat)
    (write_to_bq : Bool) (st : BqState) : Except String BqState :=
  match closePriceBatches today att max_retry write_to_bq
      (chunks10 tickers) 0 st with
  | .error e => .error e
  | .ok st' =>
    if write_to_bq then
      let (main, delta) := mergeStep st'.close_price st'.close_price_delta
      .ok { st' with close_price := main, close_price_delta := delta }
    else .ok st'

/-- `YahooFinanceWatcher.write_results` (lines 233-334): always run the
close-price pipeline; fetch and load trending only when `n_round == 1`. -/
def yfWriteResults (n_round : Int) (today : Int) (tickers : List String)
    (att : Nat → Nat → Except String YfResp) (max_retry : Nat)
    (regions : List (String × Except String TrendResp))
    (write_to_bq : Bool) (st : BqState) : Except String BqState :=
  match retrieveWriteClosePrice today tickers att max_retry write_to_bq st with
  | .error e => .error e
  | .ok st1 =>
    if n_round = 1 then
      let tdf := retrieveTrending today regions
      if write_to_bq then .ok { st1 with trending := st1.trending ++ tdf }
      else .ok st1
    else .ok st1

/-! ## Concrete fixtures used by counterexamples and witnesses -/

/-- A well-formed Reddit post. -/
def cPost : RedditRawPost :=
  ⟨"t3", "stocks", "hello", "", 1, 10, 0, 10, 0, "", 1700000000, 1700000000, "abc"⟩

/-- A user included in a Twitter page. -/
def cUser : RawUser := ⟨"u1", "alice", "Alice", ⟨1, 2, 3, 4⟩⟩

/-- A tweet with an `entities` object carrying one cashtag. -/
def cTweet : RawTweet :=
  ⟨"id1", "u1", "2024-01-01T00:00:00Z", "to the moon", ⟨5, 1, 9, 0⟩,
    some ⟨none, some [⟨"AAPL"⟩], none, none, none⟩⟩

/-- A tweet without an `entities` key whose author is not in the page's
included users. -/
def cTweet2 : RawTweet :=
  ⟨"id2", "zz", "2024-01-01T00:00:01Z", "quiet", ⟨0, 0, 0, 0⟩, none⟩

/-- A page `meta` carrying a `next_token`. -/
def cMetaTok : TwMeta := ⟨some "tok"⟩

/-- A page `meta` without a `next_token`. -/
def cMetaEnd : TwMeta := ⟨none⟩

/-- A well-formed one-tweet Twitter body. -/
def cGoodBody : TwBody := ⟨some [cTweet], some [cUser], some cMetaTok⟩

/-- A 200 body with zero tweets (`data: []`). -/
def cEmptyPageBody : TwBody := ⟨some [], some [cUser], some cMetaEnd⟩

/-- One fully-merged output row. -/
def cTwRow : TwRow :=
  ⟨"c", "a", "t", [], [], [], [], [], 0, 0, 0, 0,
    none, none, none, none, none, none, "id"⟩

/-- A 100-row page, as in the spec's Scenario 2. -/
def c100Rows : List TwRow := List.replicate 100 cTwRow

/-! ## C1 -/

/-- C1: the claim says an empty first page for any source/community yields
an empty Result Set for that unit and the operation returns normally.  The
code violates this: with a single community whose first page has zero
children, `posts.set_index('id')` raises `KeyError` (the empty frame has no
`id` column); on the Twitter side a 200 page with zero tweets makes
`df['entities']` raise inside `_df_from_response`, so `write_results`
raises.  Only the mid-run case works: an empty unit among non-empty ones
contributes nothing and the run returns the other community's records. -/
theorem c1_empty_page_raises :
    redditGetNewPosts [fun _ => ([] : List RedditRawPost)] 100 = .error "KeyError: 'id'"
    ∧ twDfFromResponse cEmptyPageBody = .error "KeyError: 'entities'"
    ∧ twWriteResults (fun _ _ => ⟨200, cEmptyPageBody⟩) 15000 150 =
        .error "KeyError: 'entities'"
    ∧ redditGetNewPosts [fun _ => [], fun _ => [cPost]] 100 = .ok [redditToRecord cPost] := by
  refine ⟨rfl, rfl, rfl, rfl⟩

/-! ## C2 -/

/-- C2 counterexample: with `how_many_posts = 150` and a server whose pages
are never empty, the loop `range(int(150 / 100))` issues exactly 1 request,
strictly fewer than `ceil(150/100) = 2`, although no empty page stopped the
community — refuting the claim's "fewer only when an empty page stops that
community early". -/
theorem c2_counterexample :
    redditRequests (fun _ => [cPost]) 150 = 1
    ∧ 1 < ceilDiv 150 100
    ∧ (redditCommunityPages (fun _ => [cPost]) 150).getLast? =
        some [redditToRecord cPost] := by
  refine ⟨rfl, by decide, rfl⟩

/-- C2 (amended): per community the loop issues at most
`floor(how_many_posts/100)` page requests (hence at most the claimed
`ceil(how_many_posts/100)`), and strictly fewer than the floor only when an
empty page stopped that community early; with `how_many_posts = 100` exactly
one request is issued, with `limit = 100` and no `after` cursor, returning
that single page's records (at most 100 when the server honours the limit),
keyed by post id. -/
theorem c2_floor_loop_bound (srv : Nat → List RedditRawPost) (n : Nat) :
    redditRequests srv n ≤ n / 100
    ∧ n / 100 ≤ ceilDiv n 100
    ∧ (redditRequests srv n < n / 100 →
        (redditCommunityPages srv n).getLast? = some [])
    ∧ (n = 100 → redditRequests srv n = 1 ∧ redditParams 0 [] = some (100, none))
    ∧ (n = 100 → redditCommunityPosts srv n = (srv 0).map redditToRecord)
    ∧ (n = 100 → (∀ i, (srv i).length ≤ 100) →
        (redditCommunityPosts srv n).length ≤ 100) := by
  refine ⟨redditGo_length_le srv _ 0 [], ?_, ?_, ?_, ?_, ?_⟩
  · exact Nat.div_le_div_right (Nat.le_add_right n 99)
  · intro h
    rcases redditGo_early_empty srv (n / 100) 0 [] h with h' | h'
    · exact h'
    · simp [redditParams] at h'
  · intro hn
    subst hn
    exact ⟨rfl, rfl⟩
  · intro hn
    subst hn
    simp [redditCommunityPosts, redditCommunityPages, redditGo, redditParams]
  · intro hn hsrv
    subst hn
    have h := redditCommunityPosts_length_le srv 100 hsrv
    simpa using h

/-- C2 witness: the amended statement at `how_many_posts = 100` and a
concrete one-post server. -/
theorem c2_witness :
    redditRequests (fun _ => [cPost]) 100 = 1
    ∧ (redditCommunityPosts (fun _ => [cPost]) 100).length ≤ 100 := by
  have h := c2_floor_loop_bound (fun _ => [cPost]) 100
  exact ⟨(h.2.2.2.1 rfl).1, h.2.2.2.2.2 rfl (fun i => by simp)⟩

/-! ## C3 -/

/-- Attempt stream whose first response is a 500 and whose retries
succeed. -/
def cAttRetry : Nat → TwResponse :=
  fun n => if n = 0 then ⟨500, ⟨none, none, none⟩⟩ else ⟨200, cGoodBody⟩

/-- Attempt stream that always fails with a body still carrying `meta`. -/
def cAttFail : Nat → TwResponse :=
  fun _ => ⟨500, ⟨none, none, some cMetaTok⟩⟩

/-- C3 counterexample: the claim says the Twitter fetch path raises
immediately on the first non-200 with no retry.  In the code
`_get_page_results` retries: with a 500 first response and a 200 second
response it issues 2 attempts and returns the page normally. -/
theorem c3_counterexample :
    (cAttRetry 0).status = 500
    ∧ (twGetPage cAttRetry).2 = 2
    ∧ (twGetPage cAttRetry).1 = .ok ([twMkRow cTweet (some cUser)], cMetaTok) := by
  refine ⟨rfl, rfl, rfl⟩

/-- C3 (amended): on the Twitter fetch path a non-200 response is retried,
up to `max_request_tries = 3` total attempts with a fixed delay: a 200
first response means a single attempt, a non-200 first response means at
least one retry, and when every attempt is non-200 exactly 3 attempts are
issued after which the page contributes an empty frame with the metadata
read from the failing body (a `KeyError` only if that body lacks `meta`).
The asymmetry with Reddit runs the other way: the Reddit path issues no
retry, and a body without `data` (as on a non-200) fails at once. -/
theorem c3_retry_policy (att : Nat → TwResponse) (m : TwMeta) :
    (twGetPage att).2 ≤ maxRequestTries
    ∧ ((att 0).status = 200 → (twGetPage att).2 = 1)
    ∧ ((att 0).status ≠ 200 → 2 ≤ (twGetPage att).2)
    ∧ ((∀ k, k < maxRequestTries → (att k).status ≠ 200) →
        (twGetPage att).2 = maxRequestTries
        ∧ ((att 2).body.meta = some m → (twGetPage att).1 = .ok ([], m)))
    ∧ redditDfFromResponse none = .error "KeyError: 'data'" := by
  by_cases h0 : (att 0).status = 200
  · have hr : twRetryGo att 3 (att 0) 1 = (att 0, 1) := by
      simp [twRetryGo, h0]
    refine ⟨?_, fun _ => ?_, fun hne => absurd h0 hne, fun hall => ?_, rfl⟩
    · simp [twGetPage, maxRequestTries, hr, h0]
    · simp [twGetPage, maxRequestTries, hr, h0]
    · exact absurd h0 (hall 0 (by decide))
  · by_cases h1 : (att 1).status = 200
    · have hr : twRetryGo att 3 (att 0) 1 = (att 1, 2) := by
        simp [twRetryGo, maxRequestTries, h0, h1]
      refine ⟨?_, fun h => absurd h h0, fun _ => ?_, fun hall => ?_, rfl⟩
      · simp [twGetPage, maxRequestTries, hr, h1]
      · simp [twGetPage, maxRequestTries, hr, h1]
      · exact absurd h1 (hall 1 (by decide))
    · have hr : twRetryGo att 3 (att 0) 1 = (att 2, 3) := by
        simp [twRetryGo, maxRequestTries, h0, h1]
      refine ⟨?_, fun h => absurd h h0, fun _ => ?_, fun hall => ⟨?_, fun hm => ?_⟩, rfl⟩
      · by_cases h2 : (att 2).status = 200 <;>
          simp [twGetPage, maxRequestTries, hr, h2]
      · by_cases h2 : (att 2).status = 200 <;>
          simp [twGetPage, maxRequestTries, hr, h2]
      · by_cases h2 : (att 2).status = 200 <;>
          simp [twGetPage, maxRequestTries, hr, h2]
      · have h2 := hall 2 (by decide)
        simp [twGetPage, maxRequestTries, hr, h2, hm]

/-- C3 witness: one attempt on a 200 first response; empty frame with the
failing body's metadata after three failing attempts. -/
theorem c3_witness :
    (twGetPage (fun _ => ⟨200, cGoodBody⟩)).2 = 1
    ∧ (twGetPage cAttFail).1 = .ok ([], cMetaTok)
    ∧ (twGetPage cAttFail).2 = maxRequestTries := by
  have ha := c3_retry_policy (fun _ => ⟨200, cGoodBody⟩) cMetaTok
  have hb := c3_retry_policy cAttFail cMetaTok
  have hall : ∀ k, k < maxRequestTries → (cAttFail k).status ≠ 200 := by
    intro k _; simp [cAttFail]
  exact ⟨ha.2.1 rfl, (hb.2.2.2.1 hall).2 rfl, (hb.2.2.2.1 hall).1⟩

/-! ## C4 -/

theorem twLoop_rows_lt (max_results pageSize : Nat) :
    ∀ (rest : List TwPage) (acc : List TwRow) (meta : TwMeta),
      acc.length < max_results + pageSize →
      (∀ p ∈ rest, (p.1).length ≤ pageSize) →
      (acc ++ ((twLoop max_results acc meta rest).map (fun p => p.1)).flatten).length
        < max_results + pageSize := by
  intro rest
  induction rest with
  | nil => intro acc meta hacc _; simpa [twLoop] using hacc
  | cons p ps ih =>
    intro acc meta hacc hpages
    by_cases hc : acc.length < max_results ∧ meta.next_token.isSome = true
    · have hp : (p.1).length ≤ pageSize := hpages p (List.mem_cons_self p ps)
      have hacc' : (acc ++ p.1).length < max_results + pageSize := by
        simp only [List.length_append]
        omega
      have := ih (acc ++ p.1) p.2 hacc'
        (fun q hq => hpages q (List.mem_cons_of_mem p hq))
      simp only [twLoop, if_pos hc, List.map_cons, List.flatten_cons]
      simpa [List.append_assoc] using this
    · simp only [twLoop, if_neg hc, List.map_nil, List.flatten_nil, List.append_nil]
      exact hacc

theorem twSizes_mono (first : TwPage) (consumed : List TwPage) (k : Nat) :
    twSizes first consumed k ≤ twSizes first consumed (k + 1) := by
  unfold twSizes
  rw [List.take_succ]
  simp

/-- With `max_results = 0` the loop guard `df_results.shape[0] < max_results`
is false from the start, so no loop page is ever consumed. -/
theorem twLoop_zero_max (acc : List TwRow) (meta : TwMeta) (rest : List TwPage) :
    twLoop 0 acc meta rest = [] := by
  cases rest with
  | nil => rfl
  | cons p ps => simp [twLoop]

/-- `posts.shape[0]` after the first `k` pages of a community's run were
appended. -/
def redditSizes (srv : Nat → List RedditRawPost) (how_many_posts : Nat)
    (k : Nat) : Nat :=
  (((redditCommunityPages srv how_many_posts).take k).flatten).length

theorem redditSizes_mono (srv : Nat → List RedditRawPost)
    (how_many_posts k : Nat) :
    redditSizes srv how_many_posts k ≤ redditSizes srv how_many_posts (k + 1) := by
  unfold redditSizes
  rw [List.take_succ]
  simp

/-- Across the successive batches of a close-price run the delta table only
grows: each batch appends its rows (`WRITE_APPEND`), none are removed
before the final merge. -/
theorem closePriceBatches_delta_mono (today : Int)
    (att : Nat → Nat → Except String YfResp) (max_retry : Nat)
    (write_to_bq : Bool) :
    ∀ (bs : List (List String)) (i : Nat) (st st' : BqState),
      closePriceBatches today att max_retry write_to_bq bs i st = .ok st' →
      st.close_price_delta.length ≤ st'.close_price_delta.length := by
  intro bs
  induction bs with
  | nil =>
    intro i st st' h
    simp only [closePriceBatches] at h
    cases h
    exact le_refl _
  | cons b brest ih =>
    intro i st st' h
    simp only [closePriceBatches] at h
    cases hf : yfFetchBatch today b (att i) max_retry with
    | error e => rw [hf] at h; cases h
    | ok pair =>
      rw [hf] at h
      have hstep := ih (i + 1) _ st' h
      refine le_trans ?_ hstep
      cases write_to_bq with
      | false => exact le_refl _
      | true => simp

theorem yfRowsOfResp_length_le (resp : YfResp)
    (hone : ∀ s ∈ resp, (s.2).length ≤ 1) :
    (yfRowsOfResp resp).length ≤ resp.length := by
  induction resp with
  | nil => simp [yfRowsOfResp]
  | cons s ss ih =>
    simp only [yfRowsOfResp, List.flatMap_cons, List.length_append, List.length_map]
    have h1 : (s.2).length ≤ 1 := hone s (List.mem_cons_self s ss)
    have h2 := ih (fun q hq => hone q (List.mem_cons_of_mem s hq))
    simp only [yfRowsOfResp] at h2
    simp only [List.length_cons]
    omega

/-- C4 counterexample: the spec's own Scenario 2 run — `max_results = 250`,
three pages of 100 rows with `next_token` on the first two — returns 300
rows, exceeding the configured cap of 250, so "the returned Result Set
never exceeds the configured cap" is false on the Twitter path. -/
theorem c4_counterexample :
    250 < (twRows (c100Rows, cMetaTok)
      (twLoop 250 c100Rows cMetaTok
        [(c100Rows, cMetaTok), (c100Rows, cMetaEnd)])).length := by
  have hc1 : c100Rows.length < 250 ∧ cMetaTok.next_token.isSome = true := by
    refine ⟨?_, rfl⟩
    simp only [c100Rows, List.length_replicate]
    omega
  have hc2 : (c100Rows ++ c100Rows).length < 250 ∧ cMetaTok.next_token.isSome = true := by
    refine ⟨?_, rfl⟩
    simp only [c100Rows, List.length_append, List.length_replicate]
    omega
  have h1 : twLoop 250 c100Rows cMetaTok
      [(c100Rows, cMetaTok), (c100Rows, cMetaEnd)] =
      [(c100Rows, cMetaTok), (c100Rows, cMetaEnd)] := by
    simp only [twLoop]
    rw [if_pos hc1, if_pos hc2]
  rw [twRows, h1]
  simp only [List.map_cons, List.map_nil, List.flatten_cons, List.flatten_nil,
    List.append_nil, List.length_append, c100Rows, List.length_replicate]
  omega

/-- C4 (amended): within every paginated fetch run the accumulated
Result-Set size is non-decreasing across successive pages — page by page
for the Reddit community loop (`redditSizes`) and the Twitter loop
(`twSizes`), and batch by batch for the Yahoo-Finance close-price delta
table, which only ever grows until the final merge.  The caps hold in this
corrected form: the Reddit path returns at most `how_many_posts` records
per community — hence at most `communities · how_many_posts` in total —
when the server honours `limit = 100`; the Twitter path can exceed
`max_results` by less than one page — with `max_results ≥ 1` the result
stays strictly below `max_results + page size`, and with `max_results = 0`
only the first page is ever fetched, so the result is at most one page; on
the Yahoo-Finance path a batch's close-price rows stay within the
requested ticker count whenever the response holds at most one observation
per requested ticker, and the not-found rows never exceed the requested
ticker count. -/
theorem c4_cap_and_monotone
    (communities : List (Nat → List RedditRawPost))
    (srv : Nat → List RedditRawPost) (n : Nat)
    (max_results pageSize : Nat) (first : TwPage) (rest : List TwPage) (k : Nat)
    (today : Int) (request : List String) (resp : YfResp)
    (att : Nat → Nat → Except String YfResp) (max_retry : Nat)
    (write_to_bq : Bool) (bs : List (List String)) (i : Nat) (st st' : BqState)
    (h1 : ∀ c ∈ communities, ∀ i, (c i).length ≤ 100)
    (h2 : ∀ i, (srv i).length ≤ 100)
    (h4 : (first.1).length ≤ pageSize)
    (h5 : ∀ p ∈ rest, (p.1).length ≤ pageSize) :
    (redditCommunityPosts srv n).length ≤ n
    ∧ (redditAllPosts communities n).length ≤ communities.length * n
    ∧ (1 ≤ max_results →
        (twRows first (twLoop max_results first.1 first.2 rest)).length
          < max_results + pageSize)
    ∧ (max_results = 0 →
        (twRows first (twLoop max_results first.1 first.2 rest)).length ≤ pageSize)
    ∧ twSizes first (twLoop max_results first.1 first.2 rest) k
        ≤ twSizes first (twLoop max_results first.1 first.2 rest) (k + 1)
    ∧ redditSizes srv n k ≤ redditSizes srv n (k + 1)
    ∧ (closePriceBatches today att max_retry write_to_bq bs i st = .ok st' →
        st.close_price_delta.length ≤ st'.close_price_delta.length)
    ∧ (resp.length ≤ request.length → (∀ s ∈ resp, (s.2).length ≤ 1) →
        (yfRowsOfResp resp).length ≤ request.length)
    ∧ (yfNotFoundRows today request (yfRowsOfResp resp) "not_found").length
        ≤ request.length := by
  refine ⟨redditCommunityPosts_length_le srv n h2,
    redditAllPosts_length_le communities n h1, ?_, ?_, twSizes_mono _ _ _,
    redditSizes_mono srv n k,
    closePriceBatches_delta_mono today att max_retry write_to_bq bs i st st',
    ?_, ?_⟩
  · intro hmax
    have hacc : (first.1).length < max_results + pageSize := by omega
    exact twLoop_rows_lt max_results pageSize rest first.1 first.2 hacc h5
  · intro hmax
    subst hmax
    rw [twRows, twLoop_zero_max]
    simpa using h4
  · intro hlen hone
    exact le_trans (yfRowsOfResp_length_le resp hone) hlen
  · simp only [yfNotFoundRows, List.length_map]
    exact le_trans (List.length_filter_le _ _) (le_refl _)

/-- C4 witness: the amended statement at a concrete one-page Twitter run,
a one-post Reddit server, a one-ticker Yahoo batch and an empty batch
run. -/
theorem c4_witness :
    (redditCommunityPosts (fun _ => [cPost]) 100).length ≤ 100
    ∧ (twRows ([cTwRow], cMetaEnd) (twLoop 1 [cTwRow] cMetaEnd [])).length < 1 + 1
    ∧ redditSizes (fun _ => [cPost]) 100 0 ≤ redditSizes (fun _ => [cPost]) 100 1
    ∧ (BqState.mk [] [] [] []).close_price_delta.length ≤
        (BqState.mk [] [] [] []).close_price_delta.length
    ∧ (yfRowsOfResp [("AAPL", [⟨"AAPL", 86400, 150⟩])]).length ≤ 1 := by
  have h := c4_cap_and_monotone [] (fun _ => [cPost]) 100 1 1
    ([cTwRow], cMetaEnd) [] 0 1 ["AAPL"] [("AAPL", [⟨"AAPL", 86400, 150⟩])]
    (fun _ _ => .error "down") 3 true [] 0 ⟨[], [], [], []⟩ ⟨[], [], [], []⟩
    (by intro c hc; simp at hc) (fun i => by simp)
    (by decide) (by intro p hp; simp at hp)
  exact ⟨h.1, h.2.2.1 (by decide), h.2.2.2.2.2.1,
    h.2.2.2.2.2.2.1 rfl, h.2.2.2.2.2.2.2.1 (by decide) (by decide)⟩

/-! ## C5 -/

theorem twLoop_stop_spec (max_results : Nat) :
    ∀ (rest : List TwPage) (acc : List TwRow) (meta : TwMeta),
      (∀ j, j < (twLoop max_results acc meta rest).length →
        acc.length +
            ((((twLoop max_results acc meta rest).take j).map
              (fun p => p.1)).flatten).length < max_results
          ∧ ((meta :: (twLoop max_results acc meta rest).map (fun p => p.2)).getD
              j ⟨none⟩).next_token.isSome = true)
      ∧ ((twLoop max_results acc meta rest).length < rest.length →
        ¬(acc.length +
              (((twLoop max_results acc meta rest).map (fun p => p.1)).flatten).length
                < max_results
            ∧ ((meta :: (twLoop max_results acc meta rest).map (fun p => p.2)).getD
              (twLoop max_results acc meta rest).length ⟨none⟩).next_token.isSome
                = true)) := by
  intro rest
  induction rest with
  | nil =>
    intro acc meta
    constructor
    · intro j hj; simp [twLoop] at hj
    · intro h; simp [twLoop] at h
  | cons p ps ih =>
    intro acc meta
    by_cases hc : acc.length < max_results ∧ meta.next_token.isSome = true
    · have hL : twLoop max_results acc meta (p :: ps) =
          p :: twLoop max_results (acc ++ p.1) p.2 ps := by
        simp only [twLoop, if_pos hc]
      obtain ⟨ih1, ih2⟩ := ih (acc ++ p.1) p.2
      constructor
      · intro j hj
        match j with
        | 0 =>
          rw [hL]
          simpa using hc
        | k + 1 =>
          rw [hL] at hj
          simp only [List.length_cons] at hj
          have hk : k < (twLoop max_results (acc ++ p.1) p.2 ps).length := by omega
          obtain ⟨ha, hb⟩ := ih1 k hk
          rw [hL]
          constructor
          · simp only [List.take_succ_cons, List.map_cons, List.flatten_cons,
              List.length_append]
            simp only [List.length_append] at ha
            omega
          · simpa using hb
      · rw [hL]
        simp only [List.length_cons]
        intro hlen
        have hlen' : (twLoop max_results (acc ++ p.1) p.2 ps).length < ps.length := by
          omega
        have := ih2 hlen'
        simp only [List.map_cons, List.flatten_cons, List.length_append,
          List.getD_cons_succ]
        simp only [List.length_append] at this
        intro hcontra
        exact this (by constructor <;> [omega; exact hcontra.2])
    · have hL : twLoop max_results acc meta (p :: ps) = [] := by
        simp only [twLoop, if_neg hc]
      constructor
      · intro j hj; rw [hL] at hj; simp at hj
      · rw [hL]
        intro _
        simpa using hc

/-- C5: the Twitter pagination loop stops exactly when the accumulated row
count reaches `max_results` or the previous page's metadata lacks a
`next_token`: every consumed loop page was fetched while the accumulated
count was still below `max_results` and a `next_token` was present, and
whenever the loop stops with server pages still available the continue
condition fails at the stopping point.  In the spec's Scenario 2
(`max_results = 250`, 100-row pages, `next_token` on pages 1-2 and absent
on page 3) exactly three pages are fetched — the first page plus two loop
pages — yielding 300 rows. -/
theorem c5_stop_condition (max_results : Nat) (first : TwPage)
    (rest : List TwPage) (j : Nat) :
    (j < (twLoop max_results first.1 first.2 rest).length →
      twSizes first (twLoop max_results first.1 first.2 rest) j < max_results
      ∧ (twMetaAt first (twLoop max_results first.1 first.2 rest) j).next_token.isSome
          = true)
    ∧ ((twLoop max_results first.1 first.2 rest).length < rest.length →
      ¬(twSizes first (twLoop max_results first.1 first.2 rest)
            (twLoop max_results first.1 first.2 rest).length < max_results
        ∧ (twMetaAt first (twLoop max_results first.1 first.2 rest)
            (twLoop max_results first.1 first.2 rest).length).next_token.isSome
          = true))
    ∧ (twLoop 250 c100Rows cMetaTok [(c100Rows, cMetaTok), (c100Rows, cMetaEnd)]
        = [(c100Rows, cMetaTok), (c100Rows, cMetaEnd)]
      ∧ (twRows (c100Rows, cMetaTok)
          (twLoop 250 c100Rows cMetaTok
            [(c100Rows, cMetaTok), (c100Rows, cMetaEnd)])).length = 300) := by
  obtain ⟨h1, h2⟩ := twLoop_stop_spec max_results rest first.1 first.2
  refine ⟨fun hj => ?_, fun hlen => ?_, ?_, ?_⟩
  · obtain ⟨ha, hb⟩ := h1 j hj
    exact ⟨ha, hb⟩
  · intro hcontra
    refine h2 hlen ⟨?_, hcontra.2⟩
    have := hcontra.1
    simpa [twSizes, List.take_length] using this
  · have hc1 : c100Rows.length < 250 ∧ cMetaTok.next_token.isSome = true := by
      refine ⟨?_, rfl⟩
      simp only [c100Rows, List.length_replicate]
      omega
    have hc2 : (c100Rows ++ c100Rows).length < 250
        ∧ cMetaTok.next_token.isSome = true := by
      refine ⟨?_, rfl⟩
      simp only [c100Rows, List.length_append, List.length_replicate]
      omega
    simp only [twLoop]
    rw [if_pos hc1, if_pos hc2]
  · have hc1 : c100Rows.length < 250 ∧ cMetaTok.next_token.isSome = true := by
      refine ⟨?_, rfl⟩
      simp only [c100Rows, List.length_replicate]
      omega
    have hc2 : (c100Rows ++ c100Rows).length < 250
        ∧ cMetaTok.next_token.isSome = true := by
      refine ⟨?_, rfl⟩
      simp only [c100Rows, List.length_append, List.length_replicate]
      omega
    have hL : twLoop 250 c100Rows cMetaTok
        [(c100Rows, cMetaTok), (c100Rows, cMetaEnd)] =
        [(c100Rows, cMetaTok), (c100Rows, cMetaEnd)] := by
      simp only [twLoop]
      rw [if_pos hc1, if_pos hc2]
    rw [twRows, hL]
    simp only [List.map_cons, List.map_nil, List.flatten_cons, List.flatten_nil,
      List.append_nil, List.length_append, c100Rows, List.length_replicate]

/-- C5 witness: Scenario 2's run, with the continue condition checked at
the second loop page. -/
theorem c5_witness :
    twSizes (c100Rows, cMetaTok)
        (twLoop 250 c100Rows cMetaTok [(c100Rows, cMetaTok), (c100Rows, cMetaEnd)]) 1
      < 250
    ∧ (twMetaAt (c100Rows, cMetaTok)
        (twLoop 250 c100Rows cMetaTok [(c100Rows, cMetaTok), (c100Rows, cMetaEnd)])
        1).next_token.isSome = true := by
  have h := c5_stop_condition 250 (c100Rows, cMetaTok)
    [(c100Rows, cMetaTok), (c100Rows, cMetaEnd)] 1
  refine h.1 ?_
  show 1 < (twLoop 250 c100Rows cMetaTok
    [(c100Rows, cMetaTok), (c100Rows, cMetaEnd)]).length
  rw [h.2.2.1]
  simp

/-! ## C6 -/

theorem twFilter_author (users : List RawUser) (aid : String)
    (hnd : (users.map RawUser.id).Nodup) :
    users.filter (fun u => u.id = aid) =
      (users.find? (fun u => u.id = aid)).toList := by
  induction users with
  | nil => rfl
  | cons u us ih =>
    simp only [List.map_cons, List.nodup_cons] at hnd
    obtain ⟨hu, hus⟩ := hnd
    by_cases h : u.id = aid
    · have hrest : us.filter (fun v => v.id = aid) = [] := by
        rw [List.filter_eq_nil_iff]
        intro v hv
        simp only [decide_eq_true_eq]
        intro hva
        exact hu (by rw [← h, ← hva] at *; exact List.mem_map_of_mem RawUser.id hv)
      rw [List.filter_cons_of_pos (by simpa using h), hrest]
      rw [List.find?_cons_of_pos _ (by simpa using h)]
      rfl
    · rw [List.filter_cons_of_neg (by simpa using h)]
      rw [List.find?_cons_of_neg _ (by simpa using h)]
      exact ih hus

theorem twMergedRows_eq (tweets : List RawTweet) (users : List RawUser)
    (hnd : (users.map RawUser.id).Nodup) :
    twMergedRows tweets users =
      tweets.map (fun t => twMkRow t (users.find? (fun u => u.id = t.author_id))) := by
  induction tweets with
  | nil => rfl
  | cons t ts ih =>
    simp only [twMergedRows, List.flatMap_cons, List.map_cons]
    rw [twFilter_author users t.author_id hnd]
    simp only [twMergedRows] at ih
    rw [ih]
    cases h : users.find? (fun u => u.id = t.author_id) with
    | none => simp [Option.toList]
    | some u => simp [Option.toList]

/-- C6 counterexample: the claim quantifies over every tweet record in a
page outputting `[]` for absent entity categories, but a page whose tweets
all lack the `entities` key never produces rows at all: the tweets frame
has no `entities` column and `df['entities']` raises `KeyError`. -/
theorem c6_counterexample :
    twDfFromResponse ⟨some [cTweet2], some [cUser], some cMetaTok⟩ =
      .error "KeyError: 'entities'" := by
  rfl

/-- C6 (amended): provided at least one tweet in the page carries an
`entities` object and the page's included-users list is non-empty (with
distinct user ids, as the API returns them) — otherwise normalization
raises a missing-column `KeyError` — `_df_from_response` succeeds, keeps
exactly one output row per tweet, and on each row the five derived list
fields equal the code's extraction of the corresponding entity category
(mapping absent categories, and an absent `entities` object altogether, to
the empty list), the tweet is left-joined to the unique included user
matching its `author_id`, and a tweet whose author is not resolvable keeps
null user fields rather than being dropped. -/
theorem c6_normalize_join (b : TwBody) (tweets : List RawTweet)
    (users : List RawUser) (j : Nat) (t : RawTweet) (es : TwEntities)
    (lc : List TwTagItem)
    (hd : b.data = some tweets)
    (hne : ¬ tweets.all (fun t => t.entities.isNone))
    (hus : b.includes_users = some users)
    (hne2 : users.isEmpty = false)
    (hnd : (users.map RawUser.id).Nodup)
    (hj : tweets.get? j = some t) :
    twDfFromResponse b = .ok (twMergedRows tweets users)
    ∧ (twMergedRows tweets users).length = tweets.length
    ∧ (twMergedRows tweets users).get? j =
        some (twMkRow t (users.find? (fun u => u.id = t.author_id)))
    ∧ (twMkRow t (users.find? (fun u => u.id = t.author_id))).annotations
        = twAnnotationsOf t.entities
    ∧ (twMkRow t (users.find? (fun u => u.id = t.author_id))).cashtags
        = twCashtagsOf t.entities
    ∧ (twMkRow t (users.find? (fun u => u.id = t.author_id))).hashtags
        = twHashtagsOf t.entities
    ∧ (twMkRow t (users.find? (fun u => u.id = t.author_id))).mentions
        = twMentionsOf t.entities
    ∧ (twMkRow t (users.find? (fun u => u.id = t.author_id))).urls
        = twUrlsOf t.entities
    ∧ (t.entities = none →
        twAnnotationsOf t.entities = [] ∧ twCashtagsOf t.entities = []
        ∧ twHashtagsOf t.entities = [] ∧ twMentionsOf t.entities = []
        ∧ twUrlsOf t.entities = [])
    ∧ (t.entities = some es → es.cashtags = some lc →
        twCashtagsOf t.entities = lc.map TwTagItem.tag)
    ∧ (t.entities = some es → es.cashtags = none →
        twCashtagsOf t.entities = [])
    ∧ (users.find? (fun u => u.id = t.author_id) = none →
        (twMkRow t none).username = none ∧ (twMkRow t none).name = none
        ∧ (twMkRow t none).followers_count = none
        ∧ (twMkRow t none).following_count = none
        ∧ (twMkRow t none).tweet_count = none
        ∧ (twMkRow t none).listed_count = none) := by
  have hmerge := twMergedRows_eq tweets users hnd
  refine ⟨?_, ?_, ?_, rfl, rfl, rfl, rfl, rfl, ?_, ?_, ?_, ?_⟩
  · simp only [twDfFromResponse, hd, hus]
    rw [if_neg hne, if_neg (by simp [hne2])]
  · rw [hmerge, List.length_map]
  · rw [hmerge, List.get?_map, hj]
    rfl
  · intro h
    simp [twAnnotationsOf, twCashtagsOf, twHashtagsOf, twMentionsOf, twUrlsOf,
      twEntOf, h, twEmptyEntities]
  · intro h hlc
    simp [twCashtagsOf, twEntOf, h, hlc]
  · intro h hlc
    simp [twCashtagsOf, twEntOf, h, hlc]
  · intro _
    exact ⟨rfl, rfl, rfl, rfl, rfl, rfl⟩

/-- C6 witness: a concrete two-tweet page — one tweet with a cashtag and a
resolvable author, one without `entities` and with an unknown author. -/
theorem c6_witness :
    twDfFromResponse ⟨some [cTweet, cTweet2], some [cUser], some cMetaTok⟩ =
      .ok (twMergedRows [cTweet, cTweet2] [cUser])
    ∧ (twMergedRows [cTweet, cTweet2] [cUser]).length = 2
    ∧ (twMergedRows [cTweet, cTweet2] [cUser]).get? 1 =
        some (twMkRow cTweet2 none) := by
  have h := c6_normalize_join ⟨some [cTweet, cTweet2], some [cUser], some cMetaTok⟩
    [cTweet, cTweet2] [cUser] 1 cTweet2 twEmptyEntities []
    rfl (by decide) rfl rfl (by decide) rfl
  refine ⟨h.1, by simpa using h.2.1, ?_⟩
  have := h.2.2.1
  simpa using this

/-! ## C7 -/

/-- Twelve requested tickers, as in the spec's Scenario 3. -/
def cTwelve : List String :=
  ["T01", "T02", "T03", "T04", "T05", "T06", "T07", "T08", "T09", "T10",
   "T11", "T12"]

/-- A successful close-price attempt whose response covers `AAPL` only. -/
def cYfAttOk : Nat → Except String YfResp :=
  fun _ => .ok [("AAPL", [⟨"AAPL", 86400, 150⟩])]

/-- C7: the batching and `not_found` half of the claim holds — 12 tickers
split into consecutive batches of 10 and 2, and a requested ticker absent
from its batch's successful response is recorded exactly once with cause
`not_found` — but the `yahoo_finance_error` half is a code bug: when every
attempt of a batch fails, the frame was never renamed, so line 149's
`df['ticker'].unique()` raises `KeyError: 'ticker'` and the batch's tickers
are never recorded; the `cause = 'yahoo_finance_error'` branch on line 152
is unreachable on that path. -/
theorem c7_batch_failure_keyerror :
    (chunks10 cTwelve).map List.length = [10, 2]
    ∧ chunks10 cTwelve =
        [["T01", "T02", "T03", "T04", "T05", "T06", "T07", "T08", "T09", "T10"],
         ["T11", "T12"]]
    ∧ yfFetchBatch 1 ["AAPL", "MSFT"] cYfAttOk 3 =
        .ok ([⟨1, "AAPL", 150⟩], [⟨1, "MSFT", "not_found"⟩])
    ∧ yfFetchBatch 1 ["AAPL"] (fun _ => .error "ConnectionError") 3 =
        .error "KeyError: 'ticker'" := by
  refine ⟨rfl, rfl, rfl, rfl⟩

/-! ## C8 -/

theorem cpFind_eq_of_nodup (delta : List CPRow) (t s : CPRow)
    (hnd : (delta.map (fun r => (r.ticker, r.day))).Nodup)
    (hs : s ∈ delta) (hkey : s.ticker = t.ticker ∧ s.day = t.day) :
    delta.find? (fun r => r.ticker = t.ticker ∧ r.day = t.day) = some s := by
  induction delta with
  | nil => simp at hs
  | cons r rs ih =>
    simp only [List.map_cons, List.nodup_cons] at hnd
    obtain ⟨hr, hrs⟩ := hnd
    rcases List.mem_cons.mp hs with hsr | hsrs
    · subst hsr
      exact List.find?_cons_of_pos _ (by simpa using hkey)
    · by_cases hmatch : r.ticker = t.ticker ∧ r.day = t.day
      · exfalso
        apply hr
        have : (s.ticker, s.day) = (r.ticker, r.day) := by
          rw [hkey.1, hkey.2, hmatch.1, hmatch.2]
        rw [← this]
        exact List.mem_map_of_mem _ hsrs
      · rw [List.find?_cons_of_neg _ (by simpa using hmatch)]
        exact ih hrs hsrs

/-- C8: the close-price merge step updates `close_price` in the main table
for every `(ticker, day)` key present in both tables, inserts the delta
rows whose key is absent from the main table, leaves all other main rows
unchanged, and the delta table is empty afterwards (the `TRUNCATE`); in
particular delta `(AAPL-day, 150.0)` over main `(AAPL-day, 140.0)` leaves
the main table holding `150.0` for that key.  Delta keys are assumed
distinct, as BigQuery's `MERGE` requires. -/
theorem c8_merge_semantics (main delta : List CPRow) (t s d : CPRow)
    (hnd : (delta.map (fun r => (r.ticker, r.day))).Nodup) :
    (mergeStep main delta).2 = []
    ∧ (t ∈ main → s ∈ delta → s.ticker = t.ticker → s.day = t.day →
        { t with close_price := s.close_price } ∈ (mergeStep main delta).1)
    ∧ (d ∈ delta → (∀ t' ∈ main, ¬(d.ticker = t'.ticker ∧ d.day = t'.day)) →
        d ∈ (mergeStep main delta).1)
    ∧ (t ∈ main → (∀ s' ∈ delta, ¬(s'.ticker = t.ticker ∧ s'.day = t.day)) →
        t ∈ (mergeStep main delta).1)
    ∧ mergeStep [⟨19723, "AAPL", 140⟩] [⟨19723, "AAPL", 150⟩] =
        ([⟨19723, "AAPL", 150⟩], []) := by
  refine ⟨rfl, ?_, ?_, ?_, ?_⟩
  · intro ht hs h1 h2
    apply List.mem_append_left
    have hf := cpFind_eq_of_nodup delta t s hnd hs ⟨h1, h2⟩
    have hthis : (fun t' =>
        match delta.find? (fun r => r.ticker = t'.ticker ∧ r.day = t'.day) with
        | some s' => { t' with close_price := s'.close_price }
        | none => t') t = { t with close_price := s.close_price } := by
      simp only [hf]
    rw [← hthis]
    exact List.mem_map_of_mem _ ht
  · intro hd hnone
    apply List.mem_append_right
    rw [List.mem_filter]
    refine ⟨hd, ?_⟩
    simp only [List.any_eq_true, decide_eq_true_eq, not_exists, not_and]
    intro t' ht' h1 h2
    exact hnone t' ht' ⟨h1, h2⟩
  · intro ht hnone
    apply List.mem_append_left
    have hf : delta.find? (fun r => r.ticker = t.ticker ∧ r.day = t.day) = none := by
      rw [List.find?_eq_none]
      intro s' hs'
      simpa using hnone s' hs'
    have hthis : (fun t' =>
        match delta.find? (fun r => r.ticker = t'.ticker ∧ r.day = t'.day) with
        | some s' => { t' with close_price := s'.close_price }
        | none => t') t = t := by
      simp only [hf]
    rw [← hthis]
    exact List.mem_map_of_mem _ ht
  · rfl

/-- C8 witness: the spec's Scenario 4 instance. -/
theorem c8_witness :
    (mergeStep [⟨19723, "AAPL", 140⟩] [⟨19723, "AAPL", 150⟩]).2 = []
    ∧ CPRow.mk 19723 "AAPL" 150 ∈
        (mergeStep [⟨19723, "AAPL", 140⟩] [⟨19723, "AAPL", 150⟩]).1 := by
  have h := c8_merge_semantics [⟨19723, "AAPL", 140⟩] [⟨19723, "AAPL", 150⟩]
    ⟨19723, "AAPL", 140⟩ ⟨19723, "AAPL", 150⟩ ⟨19723, "AAPL", 150⟩ (by decide)
  exact ⟨h.1, h.2.1 (by decide) (by decide) rfl rfl⟩

/-! ## C9 -/

theorem retrieveTrending_go (today : Int) :
    ∀ (rs : List (String × Except String TrendResp)) (acc : List TrendRow),
      rs.foldl (fun df r => df ++ trendRegionRows today r.1 r.2) acc =
        acc ++ rs.foldl (fun df r => df ++ trendRegionRows today r.1 r.2) [] := by
  intro rs
  induction rs with
  | nil => intro acc; simp
  | cons p ps ih =>
    intro acc
    simp only [List.foldl_cons]
    rw [ih (acc ++ trendRegionRows today p.1 p.2),
      ih (List.nil ++ trendRegionRows today p.1 p.2)]
    simp

theorem retrieveTrending_append (today : Int)
    (as bs : List (String × Except String TrendResp)) :
    retrieveTrending today (as ++ bs) =
      retrieveTrending today as ++ retrieveTrending today bs := by
  unfold retrieveTrending
  rw [List.foldl_append]
  rw [retrieveTrending_go today bs]

/-- C9: in the trending retrieval an erroring region (any exception while
fetching or normalizing it) and a region whose response has zero result
entries are skipped without propagating: dropping such a region from the
region list leaves the result unchanged, and the remaining regions still
contribute exactly their own rows. -/
theorem c9_region_isolation (today : Int)
    (xs ys : List (String × Except String TrendResp))
    (r : String) (e : String) (resp : TrendResp) :
    (retrieveTrending today (xs ++ (r, .error e) :: ys) =
      retrieveTrending today xs ++ retrieveTrending today ys)
    ∧ (resp.result = [] →
        retrieveTrending today (xs ++ (r, .ok resp) :: ys) =
          retrieveTrending today xs ++ retrieveTrending today ys)
    ∧ (retrieveTrending today ((r, .ok resp) :: ys) =
        trendRegionRows today r (.ok resp) ++ retrieveTrending today ys) := by
  have hcons : ∀ (p : String × Except String TrendResp)
      (qs : List (String × Except String TrendResp)),
      retrieveTrending today (p :: qs) =
        trendRegionRows today p.1 p.2 ++ retrieveTrending today qs := by
    intro p qs
    unfold retrieveTrending
    simp only [List.foldl_cons, List.nil_append]
    exact retrieveTrending_go today qs (trendRegionRows today p.1 p.2)
  refine ⟨?_, fun hresp => ?_, hcons (r, .ok resp) ys⟩
  · rw [retrieveTrending_append, hcons]
    simp [trendRegionRows]
  · rw [retrieveTrending_append, hcons]
    simp [trendRegionRows, hresp]

/-- C9 witness: a failing region between two healthy regions, plus a
zero-result region, contribute nothing while the healthy regions' quotes
survive. -/
theorem c9_witness :
    retrieveTrending 1
        [("US", .ok ⟨[⟨[⟨"AAPL"⟩]⟩]⟩), ("GB", .error "boom"),
         ("IT", .ok ⟨[⟨[⟨"ENI"⟩]⟩]⟩)] =
      [⟨1, "AAPL", "US"⟩, ⟨1, "ENI", "IT"⟩]
    ∧ retrieveTrending 1 [("FR", .ok ⟨[]⟩)] = [] := by
  have h1 := c9_region_isolation 1 [("US", .ok ⟨[⟨[⟨"AAPL"⟩]⟩]⟩)]
    [("IT", .ok ⟨[⟨[⟨"ENI"⟩]⟩]⟩)] "GB" "boom" ⟨[]⟩
  have h2 := c9_region_isolation 1 [] [] "FR" "unused" (⟨[]⟩ : TrendResp)
  constructor
  · rw [show [("US", (.ok ⟨[⟨[⟨"AAPL"⟩]⟩]⟩ : Except String TrendResp)),
        ("GB", .error "boom"), ("IT", .ok ⟨[⟨[⟨"ENI"⟩]⟩]⟩)] =
        [("US", (.ok ⟨[⟨[⟨"AAPL"⟩]⟩]⟩ : Except String TrendResp))] ++
          ("GB", .error "boom") :: [("IT", .ok ⟨[⟨[⟨"ENI"⟩]⟩]⟩)] from rfl]
    rw [h1.1]
    rfl
  · have := h2.2.1 rfl
    simpa using this

/-! ## C10 -/

theorem closePriceBatches_trending (today : Int)
    (att : Nat → Nat → Except String YfResp) (max_retry : Nat)
    (write_to_bq : Bool) :
    ∀ (bs : List (List String)) (i : Nat) (st st' : BqState),
      closePriceBatches today att max_retry write_to_bq bs i st = .ok st' →
      st'.trending = st.trending := by
  intro bs
  induction bs with
  | nil =>
    intro i st st' h
    simp only [closePriceBatches] at h
    cases h
    rfl
  | cons b brest ih =>
    intro i st st' h
    simp only [closePriceBatches] at h
    cases hf : yfFetchBatch today b (att i) max_retry with
    | error e => rw [hf] at h; cases h
    | ok pair =>
      rw [hf] at h
      have := ih (i + 1) _ st' h
      rw [this]
      cases write_to_bq <;> rfl

theorem retrieveWriteClosePrice_trending (today : Int) (tickers : List String)
    (att : Nat → Nat → Except String YfResp) (max_retry : Nat)
    (write_to_bq : Bool) (st st' : BqState)
    (h : retrieveWriteClosePrice today tickers att max_retry write_to_bq st
        = .ok st') :
    st'.trending = st.trending := by
  unfold retrieveWriteClosePrice at h
  cases hb : closePriceBatches today att max_retry write_to_bq
      (chunks10 tickers) 0 st with
  | error e => rw [hb] at h; cases h
  | ok st1 =>
    rw [hb] at h
    have h1 := closePriceBatches_trending today att max_retry write_to_bq
      (chunks10 tickers) 0 st st1 hb
    cases write_to_bq with
    | false => simp at h; rw [← h]; exact h1
    | true =>
      simp only [if_true, mergeStep] at h
      cases h
      exact h1

/-- C10: for every call of `YahooFinanceWatcher.write_results` with
`n_round ≠ 1` the trending retrieval and the trending-table load are
skipped, leaving the trending destination table exactly as it was;
trending rows are appended only on `n_round = 1` runs. -/
theorem c10_trending_only_round1 (n_round today : Int) (tickers : List String)
    (att : Nat → Nat → Except String YfResp) (max_retry : Nat)
    (regions : List (String × Except String TrendResp))
    (write_to_bq : Bool) (st st' : BqState)
    (hr : n_round ≠ 1)
    (h : yfWriteResults n_round today tickers att max_retry regions
        write_to_bq st = .ok st') :
    st'.trending = st.trending := by
  unfold yfWriteResults at h
  cases hb : retrieveWriteClosePrice today tickers att max_retry write_to_bq st with
  | error e => rw [hb] at h; cases h
  | ok st1 =>
    rw [hb] at h
    dsimp only at h
    rw [if_neg hr] at h
    have hst : st1 = st' := by injection h
    subst hst
    exact retrieveWriteClosePrice_trending today tickers att max_retry
      write_to_bq st st1 hb

/-- C10 witness: a concrete `n_round = 2` run over an empty ticker list
leaves the pre-existing trending rows untouched. -/
theorem c10_witness :
    (BqState.mk [] [] [] [⟨1, "AAPL", "US"⟩]).trending =
      (BqState.mk [] [] [] [⟨1, "AAPL", "US"⟩]).trending := by
  exact c10_trending_only_round1 2 1 [] (fun _ _ => .error "down") 3
    [("US", .ok ⟨[]⟩)] true ⟨[], [], [], [⟨1, "AAPL", "US"⟩]⟩
    ⟨[], [], [], [⟨1, "AAPL", "US"⟩]⟩ (by decide) rfl

end Watchman
